import Mathlib

/-!
Shallow embedding of the x402 payment bridge (Shopify ↔ x402 facilitator).

The embedding follows the TypeScript source:
- `src/services/x402Service.ts` : the facilitator client (`verifyPayment`,
  `generatePaymentRequest`).
- `src/index.ts` : the Express route handlers. The repository holds two
  variants of this file; the plain `/api/...` routes and the
  `/shopify-proxy/...` routes are both modelled.
- `prisma/migrations/.../migration.sql` : the `Shop` and `Payment` tables,
  including the unique index on `Payment.txHash` and the NOT NULL columns,
  which the `paymentCreate` model enforces the way Prisma does.

JavaScript values that may be `undefined`/`null` are modelled as
`Option String`; the truthiness tests (`!x`, `x || d`) are modelled by
`jsTruthy` / `jsOr` (a JS string is falsy exactly when it is empty, and
`undefined`/`null` are falsy). External effects (the axios round trip to the
facilitator, the Shopify Admin-API order creation, id generation, and
`Date.now()`) enter the handlers as explicit parameters, so every handler is a
total function from its inputs and the database state to an outcome that
records the HTTP response, the new database state, and the list of facilitator
calls issued.
-/

namespace X402Bridge

/-- A JSON field value as JavaScript sees it: absent (`undefined`) or `null`,
a boolean, a number, or a string. Used where the code inspects a field of an
untyped response body, e.g. `response.data.verified === true`. -/
inductive JsValue where
  | undef
  | null
  | bool (b : Bool)
  | num (n : Int)
  | str (s : String)
deriving DecidableEq, Repr

/-- JavaScript strict equality against the literal `true`
(`v === true`). Only the boolean `true` passes; truthy values such as `1` or
`"true"` do not. -/
def jsStrictTrue : JsValue → Bool
  | .bool true => true
  | _ => false

/-- Truthiness of a possibly-absent JS string: `undefined`/`null` and the
empty string are falsy, every other string is truthy. Models the guards
`if (!shop || !txHash || ...)`. -/
def jsTruthy : Option String → Bool
  | none => false
  | some s => !(s == "")

/-- The JS idiom `v || d` on a possibly-absent string: the value when truthy,
the default otherwise. Models `productTitle || 'Unknown Product'` and
`response.data.status || 'verified'`. -/
def jsOr (v : Option String) (d : String) : String :=
  if jsTruthy v then v.getD "" else d

/-- Argument of `X402Service.verifyPayment` (x402Service.ts, interface
`VerifyPaymentRequest`). -/
structure VerifyPaymentRequest where
  txHash : String
  network : String
  fromAddress : String
  toAddress : String
  tokenAddress : String
  amount : String
deriving DecidableEq, Repr

/-- The `transaction` object inside a verification response (x402Service.ts,
interface `VerifyPaymentResponse`). `from` is spelled `from_` because `from`
is a Lean keyword. -/
structure TransactionInfo where
  hash : String
  from_ : String
  to_ : String
  value : String
  token : String
  blockNumber : Nat
  timestamp : Nat
deriving DecidableEq, Repr

/-- Result of `X402Service.verifyPayment` (x402Service.ts, interface
`VerifyPaymentResponse`). -/
structure VerifyPaymentResponse where
  verified : Bool
  transaction : TransactionInfo
  status : String
deriving DecidableEq, Repr

/-- Body of a successful (2xx) facilitator response as the code reads it:
`response.data.verified` (inspected with `=== true`, so kept as a raw
`JsValue`), `response.data.transaction`, and `response.data.status`
(used via `|| 'verified'`). -/
structure FacilitatorData where
  verified : JsValue
  transaction : TransactionInfo
  status : Option String
deriving DecidableEq, Repr

/-- Outcome of the axios POST to the facilitator: either a 2xx response with
a body, or a failure (transport error or non-2xx status — axios throws in
both cases, landing in the `catch` block). -/
inductive FacilitatorResult where
  | success (data : FacilitatorData)
  | failure
deriving DecidableEq, Repr

/-- Model of `X402Service.verifyPayment` (x402Service.ts lines 36–76). The axios
outcome `fac` and the clock `now` (`Date.now()`, used only in the catch
branch) are explicit parameters. The function is total: the `catch` branch
returns a synthetic not-verified result built from the request's own fields
instead of rethrowing. -/
def verifyPayment (fac : FacilitatorResult) (request : VerifyPaymentRequest)
    (now : Nat) : VerifyPaymentResponse :=
  match fac with
  | .success data =>
      { verified := jsStrictTrue data.verified
        transaction := data.transaction
        status := jsOr data.status "verified" }
  | .failure =>
      { verified := false
        transaction :=
          { hash := request.txHash
            from_ := request.fromAddress
            to_ := request.toAddress
            value := request.amount
            token := request.tokenAddress
            blockNumber := 0
            timestamp := now }
        status := "failed" }

/-- Metadata block of a generated payment request (x402Service.ts
lines 96–100). -/
structure PaymentRequestMeta where
  productId : Option String
  productTitle : Option String
  timestamp : Nat
deriving DecidableEq, Repr

/-- Payment-request object returned by
`X402Service.generatePaymentRequest` (x402Service.ts lines 89–101).
Fields that merely echo possibly-absent JS inputs are `Option String`. -/
structure PaymentRequest where
  protocol : String
  version : String
  recipient : Option String
  token : Option String
  amount : Option String
  network : Option String
  metadata : PaymentRequestMeta
deriving DecidableEq, Repr

/-- Model of `X402Service.generatePaymentRequest` (x402Service.ts lines 81–102):
packages the merchant wallet, token, amount, network and product metadata
into an x402 v2 payment request, stamping `Date.now()` (the `now`
parameter). -/
def generatePaymentRequest (merchantWallet tokenAddress amount network
    productId productTitle : Option String) (now : Nat) : PaymentRequest :=
  { protocol := "x402"
    version := "2.0"
    recipient := merchantWallet
    token := tokenAddress
    amount := amount
    network := network
    metadata :=
      { productId := productId
        productTitle := productTitle
        timestamp := now } }

end X402Bridge

namespace X402Bridge

/-- A row of the `Shop` table (migration.sql lines 2–15): `walletAddress`,
`acceptedToken`, `acceptedNetwork` and `scope` are nullable, the rest are
NOT NULL. -/
structure Shop where
  id : String
  shopDomain : String
  accessToken : String
  scope : Option String
  walletAddress : Option String
  acceptedToken : Option String
  acceptedNetwork : Option String
  isX402Enabled : Bool
deriving DecidableEq, Repr

/-- A row of the `Payment` table (migration.sql lines 18–37). All the
columns used by the handlers are NOT NULL except `verificationData`
(kept here as the structured verification result). -/
structure Payment where
  id : String
  shopId : String
  productId : String
  productTitle : String
  amount : String
  txHash : String
  fromAddress : String
  toAddress : String
  tokenAddress : String
  network : String
  facilitatorStatus : String
  verificationData : VerifyPaymentResponse
  status : String
deriving DecidableEq, Repr

/-- The persistent state: the two tables. -/
structure DB where
  shops : List Shop
  payments : List Payment
deriving DecidableEq, Repr

/-- Model of the Prisma lookup of a shop by its unique domain. -/
def shopFindUnique (db : DB) (domain : String) : Option Shop :=
  db.shops.find? (fun s => s.shopDomain == domain)

/-- The data object passed to `prisma.payment.create` by the verify
handlers. Fields fed from possibly-`null`/`undefined` JS values are
`Option String`; Prisma rejects the create when a NOT NULL column receives
`null`/`undefined`. -/
structure PaymentData where
  shopId : String
  productId : Option String
  productTitle : String
  amount : Option String
  txHash : Option String
  fromAddress : Option String
  toAddress : Option String
  tokenAddress : Option String
  network : Option String
  facilitatorStatus : String
  verificationData : VerifyPaymentResponse
  status : String
deriving DecidableEq, Repr

/-- Model of `prisma.payment.create`: fails when a NOT NULL column would receive
`null`/`undefined`, or when the unique index `Payment_txHash_key`
(migration.sql line 46) is violated; otherwise appends the new row (with the
generated id `newId`) and returns it. -/
def paymentCreate (db : DB) (newId : String) (d : PaymentData) :
    Except String (Payment × DB) :=
  match d.productId, d.amount, d.txHash, d.fromAddress, d.toAddress,
      d.tokenAddress, d.network with
  | some pid, some amt, some tx, some fr, some toA, some tok, some net =>
    if db.payments.any (fun q => q.txHash == tx) then
      .error "Unique constraint failed on the fields: (txHash)"
    else
      let p : Payment :=
        { id := newId
          shopId := d.shopId
          productId := pid
          productTitle := d.productTitle
          amount := amt
          txHash := tx
          fromAddress := fr
          toAddress := toA
          tokenAddress := tok
          network := net
          facilitatorStatus := d.facilitatorStatus
          verificationData := d.verificationData
          status := d.status }
      .ok (p, { db with payments := db.payments ++ [p] })
  | _, _, _, _, _, _, _ => .error "Null constraint violation"

/-- List of the txHash column over the Payment table, used to state the
uniqueness invariant backed by `Payment_txHash_key`. -/
def txHashes (db : DB) : List String := db.payments.map (fun p => p.txHash)

/-- Response of `POST /api/payment/request` (index.ts lines 151–185):
`res.json(paymentRequest)`, a 400, or the catch-all 500. -/
inductive PaymentRequestResponse where
  | ok (body : PaymentRequest)
  | badRequest (error : String)
  | serverError (error : String)
deriving DecidableEq, Repr

/-- Body of `POST /api/payment/request`. -/
structure RequestBody where
  shop : Option String
  productId : Option String
  productTitle : Option String
  amount : Option String
deriving DecidableEq, Repr

/-- What a run of the payment-request handler produces: the HTTP response,
the resulting database, and every verification call issued to the
facilitator client during the run. -/
structure RequestOutcome where
  response : PaymentRequestResponse
  db : DB
  facilitatorCalls : List VerifyPaymentRequest
deriving DecidableEq, Repr

/-- The `POST /api/payment/request` handler (index.ts lines 151–185):
require `shop`, `productId`, `amount`; resolve the shop; reject when the
shop is missing or disabled, or its wallet/token/network configuration is
incomplete; otherwise answer with `generatePaymentRequest`. The handler
never writes to the database and never calls the facilitator. -/
def postPaymentRequest (db : DB) (now : Nat) (body : RequestBody) :
    RequestOutcome :=
  if !(jsTruthy body.shop && jsTruthy body.productId && jsTruthy body.amount) then
    { response := .badRequest "Missing required parameters"
      db := db, facilitatorCalls := [] }
  else
    match shopFindUnique db (body.shop.getD "") with
    | none =>
        { response := .badRequest "x402 payments not enabled for this shop"
          db := db, facilitatorCalls := [] }
    | some shopData =>
        if !shopData.isX402Enabled then
          { response := .badRequest "x402 payments not enabled for this shop"
            db := db, facilitatorCalls := [] }
        else if !(jsTruthy shopData.walletAddress &&
            jsTruthy shopData.acceptedToken &&
            jsTruthy shopData.acceptedNetwork) then
          { response := .badRequest "Shop payment configuration incomplete"
            db := db, facilitatorCalls := [] }
        else
          { response := .ok (generatePaymentRequest shopData.walletAddress
              shopData.acceptedToken body.amount shopData.acceptedNetwork
              body.productId body.productTitle now)
            db := db, facilitatorCalls := [] }

/-- Body of `POST /api/payment/verify`. -/
structure VerifyBody where
  shop : Option String
  txHash : Option String
  fromAddress : Option String
  amount : Option String
  productId : Option String
  productTitle : Option String
deriving DecidableEq, Repr

/-- Success body of `POST /api/payment/verify` (index.ts lines 231–236). -/
structure VerifyOkBody where
  verified : Bool
  paymentId : String
  status : String
  transaction : TransactionInfo
deriving DecidableEq, Repr

/-- Response of `POST /api/payment/verify`. -/
inductive VerifyResponse where
  | ok (body : VerifyOkBody)
  | badRequest (error : String)
  | notFound (error : String)
  | serverError (error : String)
deriving DecidableEq, Repr

/-- What a run of a verify handler produces. -/
structure VerifyOutcome where
  response : VerifyResponse
  db : DB
  facilitatorCalls : List VerifyPaymentRequest
deriving DecidableEq, Repr

/-- The argument both verify handlers pass to `x402Service.verifyPayment`
(index.ts lines 204–211 and 680–687). The TypeScript non-null assertions
on the shop's nullable columns are modelled by defaulting `null` to `""`. -/
def mkVerifyRequest (shopData : Shop)
    (txHash fromAddress amount : Option String) : VerifyPaymentRequest :=
  { txHash := txHash.getD ""
    network := shopData.acceptedNetwork.getD ""
    fromAddress := fromAddress.getD ""
    toAddress := shopData.walletAddress.getD ""
    tokenAddress := shopData.acceptedToken.getD ""
    amount := amount.getD "" }

/-- The `data` object `POST /api/payment/verify` hands to
`prisma.payment.create` (index.ts lines 214–229): status fields are derived
from the verification outcome, `productTitle` falls back to
"Unknown Product". -/
def verifyPaymentData (shopData : Shop) (body : VerifyBody)
    (verification : VerifyPaymentResponse) : PaymentData :=
  { shopId := shopData.id
    productId := body.productId
    productTitle := jsOr body.productTitle "Unknown Product"
    amount := body.amount
    txHash := body.txHash
    fromAddress := body.fromAddress
    toAddress := shopData.walletAddress
    tokenAddress := shopData.acceptedToken
    network := shopData.acceptedNetwork
    facilitatorStatus := if verification.verified then "verified" else "failed"
    verificationData := verification
    status := if verification.verified then "completed" else "failed" }

/-- The `POST /api/payment/verify` handler (index.ts lines 187–241):
require `shop`, `txHash`, `fromAddress`, `amount`; resolve the shop (404
when absent — note the handler performs no `isX402Enabled` check); call the
facilitator; create the Payment Record whatever the verification outcome;
on a create failure the catch block answers 500. `fac` is the axios
outcome, `newId` the id Prisma generates, `now` the clock. -/
def postPaymentVerify (db : DB) (fac : FacilitatorResult) (newId : String)
    (now : Nat) (body : VerifyBody) : VerifyOutcome :=
  if !(jsTruthy body.shop && jsTruthy body.txHash &&
      jsTruthy body.fromAddress && jsTruthy body.amount) then
    { response := .badRequest "Missing required parameters"
      db := db, facilitatorCalls := [] }
  else
    match shopFindUnique db (body.shop.getD "") with
    | none =>
        { response := .notFound "Shop not found", db := db, facilitatorCalls := [] }
    | some shopData =>
        let vreq := mkVerifyRequest shopData body.txHash body.fromAddress body.amount
        let verification := verifyPayment fac vreq now
        match paymentCreate db newId (verifyPaymentData shopData body verification) with
        | .error _ =>
            { response := .serverError "Payment verification failed"
              db := db, facilitatorCalls := [vreq] }
        | .ok (payment, db2) =>
            { response := .ok
                { verified := verification.verified
                  paymentId := payment.id
                  status := payment.status
                  transaction := verification.transaction }
              db := db2, facilitatorCalls := [vreq] }

/-- Modelled from the spec: the order receipt returned by the Order Client
(`shopifyOrderService.createOrder`), whose source file is not under `src/`;
the spec describes it only as an opaque `OrderReceipt` attached to the
response, so it is kept abstract as the created order's identity. -/
structure OrderReceipt where
  orderId : String
deriving DecidableEq, Repr

/-- Body of `POST /shopify-proxy/api/payment/verify` (the shop identity
arrives separately, from the query string or the proxy headers). -/
structure ProxyVerifyBody where
  txHash : Option String
  fromAddress : Option String
  amount : Option String
  productId : Option String
  productTitle : Option String
  productPrice : Option String
deriving DecidableEq, Repr

/-- Success body of `POST /shopify-proxy/api/payment/verify`
(index.ts lines 725–730): it carries the order receipt and, unlike the
plain variant, no `status` field. -/
structure ProxyVerifyOkBody where
  verified : Bool
  paymentId : String
  order : OrderReceipt
  transaction : TransactionInfo
deriving DecidableEq, Repr

/-- Response of `POST /shopify-proxy/api/payment/verify`.
`verificationFailed` is the dedicated 400 body
`{error, verified:false}` of index.ts lines 689–694. -/
inductive ProxyVerifyResponse where
  | ok (body : ProxyVerifyOkBody)
  | badRequest (error : String)
  | verificationFailed (error : String) (verified : Bool)
  | notFound (error : String)
  | serverError (error : String)
deriving DecidableEq, Repr

/-- What a run of the proxy verify handler produces. -/
structure ProxyVerifyOutcome where
  response : ProxyVerifyResponse
  db : DB
  facilitatorCalls : List VerifyPaymentRequest
deriving DecidableEq, Repr

/-- The `data` object the proxy verify handler hands to
`prisma.payment.create` (index.ts lines 697–712): this path is only reached
after a successful verification, so the status fields are the literals
`'verified'` and `'completed'`. -/
def proxyVerifyPaymentData (shopData : Shop) (body : ProxyVerifyBody)
    (verification : VerifyPaymentResponse) : PaymentData :=
  { shopId := shopData.id
    productId := body.productId
    productTitle := jsOr body.productTitle "Unknown Product"
    amount := body.amount
    txHash := body.txHash
    fromAddress := body.fromAddress
    toAddress := shopData.walletAddress
    tokenAddress := shopData.acceptedToken
    network := shopData.acceptedNetwork
    facilitatorStatus := "verified"
    verificationData := verification
    status := "completed" }

/-- The `POST /shopify-proxy/api/payment/verify` handler (index.ts
lines 653–735): same required fields and shop resolution as the plain
variant, but on a failed verification it answers 400 immediately and
persists nothing; only on success does it create the Payment Record and
then the Shopify order (`orderResult` is the outcome of that external
Admin-API call; when it fails, the catch block answers 500 and the already
created Payment Record stays — no compensation). -/
def proxyPaymentVerify (db : DB) (fac : FacilitatorResult)
    (orderResult : Except String OrderReceipt) (newId : String) (now : Nat)
    (shop : Option String) (body : ProxyVerifyBody) : ProxyVerifyOutcome :=
  if !(jsTruthy shop && jsTruthy body.txHash &&
      jsTruthy body.fromAddress && jsTruthy body.amount) then
    { response := .badRequest "Missing required parameters"
      db := db, facilitatorCalls := [] }
  else
    match shopFindUnique db (shop.getD "") with
    | none =>
        { response := .notFound "Shop not found", db := db, facilitatorCalls := [] }
    | some shopData =>
        let vreq := mkVerifyRequest shopData body.txHash body.fromAddress body.amount
        let verification := verifyPayment fac vreq now
        if !verification.verified then
          { response := .verificationFailed "Payment verification failed" false
            db := db, facilitatorCalls := [vreq] }
        else
          match paymentCreate db newId
              (proxyVerifyPaymentData shopData body verification) with
          | .error e =>
              { response := .serverError e, db := db, facilitatorCalls := [vreq] }
          | .ok (payment, db2) =>
              match orderResult with
              | .error e =>
                  { response := .serverError e, db := db2, facilitatorCalls := [vreq] }
              | .ok order =>
                  { response := .ok
                      { verified := true
                        paymentId := payment.id
                        order := order
                        transaction := verification.transaction }
                    db := db2, facilitatorCalls := [vreq] }

/-- Body of `POST /shopify-proxy/api/payment/request` (the shop identity
arrives separately). -/
structure ProxyRequestBody where
  productId : Option String
  productTitle : Option String
  amount : Option String
deriving DecidableEq, Repr

/-- The `POST /shopify-proxy/api/payment/request` handler (index.ts
lines 617–650): require `shop`, `productId`, `amount`; reject a missing or
disabled shop with a 400; otherwise answer with `generatePaymentRequest`
(no configuration-completeness check in this variant — the nullable columns
are passed through the non-null assertions unchanged). Like the plain
variant it never writes to the database and never calls the facilitator. -/
def proxyPaymentRequest (db : DB) (now : Nat) (shop : Option String)
    (body : ProxyRequestBody) : RequestOutcome :=
  if !(jsTruthy shop && jsTruthy body.productId && jsTruthy body.amount) then
    { response := .badRequest "Missing required parameters"
      db := db, facilitatorCalls := [] }
  else
    match shopFindUnique db (shop.getD "") with
    | none =>
        { response := .badRequest "x402 payments not enabled"
          db := db, facilitatorCalls := [] }
    | some shopData =>
        if !shopData.isX402Enabled then
          { response := .badRequest "x402 payments not enabled"
            db := db, facilitatorCalls := [] }
        else
          { response := .ok (generatePaymentRequest shopData.walletAddress
              shopData.acceptedToken body.amount shopData.acceptedNetwork
              body.productId body.productTitle now)
            db := db, facilitatorCalls := [] }

/-- Body of `POST /api/config` (index.ts line 115). A field is `none` when
omitted from the request body (`undefined`), in which case Prisma leaves the
column untouched. -/
structure ConfigBody where
  shop : Option String
  walletAddress : Option String
  acceptedToken : Option String
  acceptedNetwork : Option String
  isX402Enabled : Option Bool
deriving DecidableEq, Repr

/-- The config slice echoed by `POST /api/config` (index.ts lines 134–139). -/
structure ConfigView where
  walletAddress : Option String
  acceptedToken : Option String
  acceptedNetwork : Option String
  isX402Enabled : Bool
deriving DecidableEq, Repr

/-- Response of `POST /api/config`. -/
inductive ConfigResponse where
  | ok (success : Bool) (config : ConfigView)
  | badRequest (error : String)
  | serverError (error : String)
deriving DecidableEq, Repr

/-- What a run of the config-update handler produces. -/
structure ConfigOutcome where
  response : ConfigResponse
  db : DB
deriving DecidableEq, Repr

/-- Effect of `prisma.shop.update`'s `data` object (index.ts lines 124–129)
on one row: a field present in the body is written, an omitted
(`undefined`) field is skipped by Prisma and keeps its previous value; no
other column appears in `data`. -/
def applyConfigUpdate (s : Shop) (body : ConfigBody) : Shop :=
  { s with
    walletAddress := match body.walletAddress with
      | none => s.walletAddress | some v => some v
    acceptedToken := match body.acceptedToken with
      | none => s.acceptedToken | some v => some v
    acceptedNetwork := match body.acceptedNetwork with
      | none => s.acceptedNetwork | some v => some v
    isX402Enabled := match body.isX402Enabled with
      | none => s.isX402Enabled | some b => b }

/-- The `POST /api/config` handler (index.ts lines 114–145): require
`shop`; `prisma.shop.update` throws when no row matches, which the catch
block turns into a 500; otherwise the matched row is updated via
`applyConfigUpdate` and the four payment fields are echoed back. -/
def postConfig (db : DB) (body : ConfigBody) : ConfigOutcome :=
  if !(jsTruthy body.shop) then
    { response := .badRequest "Missing shop parameter", db := db }
  else
    match shopFindUnique db (body.shop.getD "") with
    | none =>
        { response := .serverError "Failed to update configuration", db := db }
    | some s =>
        let u := applyConfigUpdate s body
        { response := .ok true
            { walletAddress := u.walletAddress
              acceptedToken := u.acceptedToken
              acceptedNetwork := u.acceptedNetwork
              isX402Enabled := u.isX402Enabled }
          db := { db with shops := db.shops.map (fun t =>
              if t.shopDomain == body.shop.getD "" then u else t) } }

/-- The verdict the facilitator round trip carries, as `verifyPayment`
interprets it: `false` on failure, and on success the strict comparison of
the body's `verified` field with `true`. -/
def facReportsVerified : FacilitatorResult → Bool
  | .success data => jsStrictTrue data.verified
  | .failure => false

/-- A fully configured, enabled sample shop used to instantiate theorems on
concrete data. -/
def sampleShop : Shop :=
  { id := "shop_1"
    shopDomain := "demo.myshopify.com"
    accessToken := "shpat_abc"
    scope := some "read_products,write_orders"
    walletAddress := some "0xWallet"
    acceptedToken := some "USDC"
    acceptedNetwork := some "base"
    isX402Enabled := true }

/-- The same shop with x402 payments disabled. -/
def sampleDisabledShop : Shop := { sampleShop with isX402Enabled := false }

/-- A database holding one enabled shop and no payments. -/
def sampleDB : DB := { shops := [sampleShop], payments := [] }

/-- A database holding one disabled shop and no payments. -/
def sampleDisabledDB : DB := { shops := [sampleDisabledShop], payments := [] }

/-- A transaction object as a facilitator might report it. -/
def sampleTx : TransactionInfo :=
  { hash := "0xdeadbeef"
    from_ := "0xBuyer"
    to_ := "0xWallet"
    value := "10"
    token := "USDC"
    blockNumber := 123
    timestamp := 999 }

/-- A successful facilitator body reporting `verified: true`. -/
def sampleFacData : FacilitatorData :=
  { verified := JsValue.bool true
    transaction := sampleTx
    status := some "verified" }

/-- A well-formed verify-request body for `sampleShop`. -/
def sampleVerifyBody : VerifyBody :=
  { shop := some "demo.myshopify.com"
    txHash := some "0xdeadbeef"
    fromAddress := some "0xBuyer"
    amount := some "10"
    productId := some "prod_1"
    productTitle := some "Hat" }

/-- A well-formed proxy verify-request body. -/
def sampleProxyVerifyBody : ProxyVerifyBody :=
  { txHash := some "0xdeadbeef"
    fromAddress := some "0xBuyer"
    amount := some "10"
    productId := some "prod_1"
    productTitle := some "Hat"
    productPrice := some "10" }

/-- A Payment row already recorded for `sampleShop`, with txHash
"0xdeadbeef". -/
def samplePayment : Payment :=
  { id := "pay_0"
    shopId := "shop_1"
    productId := "prod_1"
    productTitle := "Hat"
    amount := "10"
    txHash := "0xdeadbeef"
    fromAddress := "0xBuyer"
    toAddress := "0xWallet"
    tokenAddress := "USDC"
    network := "base"
    facilitatorStatus := "verified"
    verificationData :=
      { verified := true, transaction := sampleTx, status := "verified" }
    status := "completed" }

/-- A database where `samplePayment` is already recorded. -/
def sampleDBWithPayment : DB :=
  { shops := [sampleShop], payments := [samplePayment] }

/-- A config-update body that sets `walletAddress` and `isX402Enabled` and
omits `acceptedToken` and `acceptedNetwork`. -/
def sampleConfigBody : ConfigBody :=
  { shop := some "demo.myshopify.com"
    walletAddress := some "0xNewWallet"
    acceptedToken := none
    acceptedNetwork := none
    isX402Enabled := some false }

/-- The sample verify body without a productTitle. -/
def sampleVerifyBodyNoTitle : VerifyBody :=
  { sampleVerifyBody with productTitle := none }

/-- The sample proxy verify body without a productTitle. -/
def sampleProxyVerifyBodyNoTitle : ProxyVerifyBody :=
  { sampleProxyVerifyBody with productTitle := none }

/-- A well-formed payment-request body for `sampleShop`. -/
def sampleRequestBody : RequestBody :=
  { shop := some "demo.myshopify.com"
    productId := some "prod_1"
    productTitle := some "Hat"
    amount := some "10" }

end X402Bridge

namespace X402Bridge

/-- A claim-relevant sanity check of the facilitator client on concrete
data: a facilitator body whose `verified` is the string "true" is not
accepted. -/
theorem jsStrictTrue_only_bool_true (v : JsValue) :
    jsStrictTrue v = true ↔ v = JsValue.bool true := by
  cases v with
  | bool b => cases b <;> simp [jsStrictTrue]
  | _ => simp [jsStrictTrue]

/-- C3: on any transport or non-2xx failure of the outbound facilitator
request, `verifyPayment` does not propagate the error: it returns
`verified = false`, `status = "failed"`, and a transaction object echoing
the request's `txHash`, `fromAddress`, `toAddress`, `amount` and
`tokenAddress` (with `blockNumber = 0` and the current time). Totality of
`verifyPayment` is the embedding of "does not throw". -/
theorem verifyPayment_fail_closed (request : VerifyPaymentRequest) (now : Nat) :
    verifyPayment FacilitatorResult.failure request now =
      { verified := false
        transaction :=
          { hash := request.txHash
            from_ := request.fromAddress
            to_ := request.toAddress
            value := request.amount
            token := request.tokenAddress
            blockNumber := 0
            timestamp := now }
        status := "failed" } := rfl

/-- C4: `verifyPayment` reports `verified = true` exactly when the
facilitator responded successfully with a body whose `verified` field is
strictly the boolean `true`; absent, `false`, or truthy-but-not-`true`
values, and every failure, yield `verified = false`. -/
theorem verifyPayment_verified_iff (fac : FacilitatorResult)
    (request : VerifyPaymentRequest) (now : Nat) :
    (verifyPayment fac request now).verified = true ↔
      ∃ data, fac = FacilitatorResult.success data ∧
        data.verified = JsValue.bool true := by
  cases fac with
  | success data =>
      simp only [verifyPayment, jsStrictTrue_only_bool_true]
      constructor
      · intro h
        exact ⟨data, rfl, h⟩
      · rintro ⟨d, hd, hv⟩
        cases hd
        exact hv
  | failure =>
      simp [verifyPayment]

/-- A truthy possibly-absent JS string is a present, non-empty string. -/
theorem jsTruthy_eq_true_iff (v : Option String) :
    jsTruthy v = true ↔ ∃ s, v = some s ∧ s ≠ "" := by
  cases v with
  | none => simp [jsTruthy]
  | some s => simp [jsTruthy]

/-- C5: a `POST /api/payment/request` whose required fields are present,
whose resolved shop is enabled and whose wallet/token/network are all set,
is answered with exactly the x402 v2 payment-request object: protocol
"x402", version "2.0", the shop's stored wallet as recipient, its token and
network, the request's amount, and metadata echoing the request's productId
and productTitle with the current timestamp. -/
theorem postPaymentRequest_success_body (db : DB) (now : Nat)
    (body : RequestBody) (shopData : Shop)
    (hshop : jsTruthy body.shop = true)
    (hpid : jsTruthy body.productId = true)
    (hamt : jsTruthy body.amount = true)
    (hfind : shopFindUnique db (body.shop.getD "") = some shopData)
    (hen : shopData.isX402Enabled = true)
    (hw : jsTruthy shopData.walletAddress = true)
    (htok : jsTruthy shopData.acceptedToken = true)
    (hnet : jsTruthy shopData.acceptedNetwork = true) :
    (postPaymentRequest db now body).response = PaymentRequestResponse.ok
      { protocol := "x402"
        version := "2.0"
        recipient := shopData.walletAddress
        token := shopData.acceptedToken
        amount := body.amount
        network := shopData.acceptedNetwork
        metadata :=
          { productId := body.productId
            productTitle := body.productTitle
            timestamp := now } } := by
  simp [postPaymentRequest, hshop, hpid, hamt, hfind, hen, hw, htok, hnet,
    generatePaymentRequest]

/-- Witness for C5 on concrete data. -/
theorem postPaymentRequest_success_body_witness :
    shopFindUnique sampleDB "demo.myshopify.com" = some sampleShop ∧
    (postPaymentRequest sampleDB 42 sampleRequestBody).response =
      PaymentRequestResponse.ok
        { protocol := "x402"
          version := "2.0"
          recipient := some "0xWallet"
          token := some "USDC"
          amount := some "10"
          network := some "base"
          metadata :=
            { productId := some "prod_1"
              productTitle := some "Hat"
              timestamp := 42 } } :=
  ⟨by decide, postPaymentRequest_success_body sampleDB 42 sampleRequestBody
    sampleShop (by decide) (by decide) (by decide) (by decide) (by decide)
    (by decide) (by decide) (by decide)⟩

/-- C6: a payment request for a missing or disabled shop is rejected with
HTTP 400, no Payment Record is created (the database is unchanged) and no
facilitator call is issued — for both the plain and the proxy variant of
the route. -/
theorem postPaymentRequest_disabled_shop (db : DB) (now : Nat)
    (body : RequestBody) (shop : Option String) (pbody : ProxyRequestBody)
    (hshop : jsTruthy body.shop = true)
    (hpid : jsTruthy body.productId = true)
    (hamt : jsTruthy body.amount = true)
    (hdis : shopFindUnique db (body.shop.getD "") = none ∨
      ∃ shopData, shopFindUnique db (body.shop.getD "") = some shopData ∧
        shopData.isX402Enabled = false)
    (hshop' : jsTruthy shop = true)
    (hpid' : jsTruthy pbody.productId = true)
    (hamt' : jsTruthy pbody.amount = true)
    (hdis' : shopFindUnique db (shop.getD "") = none ∨
      ∃ shopData, shopFindUnique db (shop.getD "") = some shopData ∧
        shopData.isX402Enabled = false) :
    ((postPaymentRequest db now body).response =
        PaymentRequestResponse.badRequest "x402 payments not enabled for this shop" ∧
      (postPaymentRequest db now body).db = db ∧
      (postPaymentRequest db now body).facilitatorCalls = []) ∧
    ((proxyPaymentRequest db now shop pbody).response =
        PaymentRequestResponse.badRequest "x402 payments not enabled" ∧
      (proxyPaymentRequest db now shop pbody).db = db ∧
      (proxyPaymentRequest db now shop pbody).facilitatorCalls = []) := by
  constructor
  · rcases hdis with h | ⟨s, hf, he⟩
    · simp [postPaymentRequest, hshop, hpid, hamt, h]
    · simp [postPaymentRequest, hshop, hpid, hamt, hf, he]
  · rcases hdis' with h | ⟨s, hf, he⟩
    · simp [proxyPaymentRequest, hshop', hpid', hamt', h]
    · simp [proxyPaymentRequest, hshop', hpid', hamt', hf, he]

/-- Witness for C6 on concrete data: the sample shop with
`isX402Enabled = false`. -/
theorem postPaymentRequest_disabled_shop_witness :
    sampleDisabledShop.isX402Enabled = false ∧
    ((postPaymentRequest sampleDisabledDB 42 sampleRequestBody).response =
        PaymentRequestResponse.badRequest "x402 payments not enabled for this shop" ∧
      (postPaymentRequest sampleDisabledDB 42 sampleRequestBody).db = sampleDisabledDB ∧
      (postPaymentRequest sampleDisabledDB 42 sampleRequestBody).facilitatorCalls = []) ∧
    ((proxyPaymentRequest sampleDisabledDB 42 (some "demo.myshopify.com")
        { productId := some "prod_1", productTitle := some "Hat", amount := some "10" }).response =
        PaymentRequestResponse.badRequest "x402 payments not enabled" ∧
      (proxyPaymentRequest sampleDisabledDB 42 (some "demo.myshopify.com")
        { productId := some "prod_1", productTitle := some "Hat", amount := some "10" }).db = sampleDisabledDB ∧
      (proxyPaymentRequest sampleDisabledDB 42 (some "demo.myshopify.com")
        { productId := some "prod_1", productTitle := some "Hat", amount := some "10" }).facilitatorCalls = []) :=
  ⟨by decide, postPaymentRequest_disabled_shop sampleDisabledDB 42
    sampleRequestBody (some "demo.myshopify.com")
    { productId := some "prod_1", productTitle := some "Hat", amount := some "10" }
    (by decide) (by decide) (by decide)
    (Or.inr ⟨sampleDisabledShop, by decide, by decide⟩)
    (by decide) (by decide) (by decide)
    (Or.inr ⟨sampleDisabledShop, by decide, by decide⟩)⟩

/-- C1: a `POST /api/payment/verify` that passes the required-field and
shop-resolution checks and for which the facilitator reports
`verified: true` creates a Payment Record with `status = "completed"` and
`facilitatorStatus = "verified"`, and answers with `verified = true`, that
record's id as `paymentId`, and `status = "completed"`. (The hypotheses on
`productId`, the shop's configuration columns and the freshness of `txHash`
make the Prisma create succeed, which the claim presupposes by speaking of
"the Payment Record created by the handler".) -/
theorem postPaymentVerify_verified_completed (db : DB)
    (fac : FacilitatorResult) (newId : String) (now : Nat)
    (body : VerifyBody) (shopData : Shop) (data : FacilitatorData)
    (pid w tok net : String)
    (hshop : jsTruthy body.shop = true)
    (htx : jsTruthy body.txHash = true)
    (hfrom : jsTruthy body.fromAddress = true)
    (hamt : jsTruthy body.amount = true)
    (hfind : shopFindUnique db (body.shop.getD "") = some shopData)
    (hfac : fac = FacilitatorResult.success data)
    (hver : data.verified = JsValue.bool true)
    (hpid : body.productId = some pid)
    (hw : shopData.walletAddress = some w)
    (htok : shopData.acceptedToken = some tok)
    (hnet : shopData.acceptedNetwork = some net)
    (hfresh : db.payments.any
      (fun q => q.txHash == body.txHash.getD "") = false) :
    ∃ p, (postPaymentVerify db fac newId now body).db.payments =
        db.payments ++ [p] ∧
      p.status = "completed" ∧
      p.facilitatorStatus = "verified" ∧
      p.id = newId ∧
      (postPaymentVerify db fac newId now body).response = VerifyResponse.ok
        { verified := true
          paymentId := p.id
          status := "completed"
          transaction := data.transaction } := by
  subst hfac
  obtain ⟨tx, htx1, -⟩ := (jsTruthy_eq_true_iff body.txHash).mp htx
  obtain ⟨fr, hfr1, -⟩ := (jsTruthy_eq_true_iff body.fromAddress).mp hfrom
  obtain ⟨amt, hamt1, -⟩ := (jsTruthy_eq_true_iff body.amount).mp hamt
  rw [htx1] at hfresh htx
  rw [hfr1] at hfrom
  rw [hamt1] at hamt
  simp only [Option.getD_some] at hfresh
  simp [postPaymentVerify, hshop, htx, hfrom, hamt, hfind, verifyPayment,
    hver, jsStrictTrue, paymentCreate, verifyPaymentData, hpid, hw, htok,
    hnet, htx1, hfr1, hamt1, hfresh]

/-- Witness for C1 on concrete data. -/
theorem postPaymentVerify_verified_completed_witness :
    shopFindUnique sampleDB "demo.myshopify.com" = some sampleShop ∧
    sampleFacData.verified = JsValue.bool true ∧
    ∃ p, (postPaymentVerify sampleDB (FacilitatorResult.success sampleFacData)
        "pay_1" 42 sampleVerifyBody).db.payments = [] ++ [p] ∧
      p.status = "completed" ∧
      p.facilitatorStatus = "verified" ∧
      p.id = "pay_1" ∧
      (postPaymentVerify sampleDB (FacilitatorResult.success sampleFacData)
        "pay_1" 42 sampleVerifyBody).response = VerifyResponse.ok
        { verified := true
          paymentId := p.id
          status := "completed"
          transaction := sampleTx } :=
  ⟨by decide, by decide,
    postPaymentVerify_verified_completed sampleDB
      (FacilitatorResult.success sampleFacData) "pay_1" 42 sampleVerifyBody
      sampleShop sampleFacData "prod_1" "0xWallet" "USDC" "base"
      (by decide) (by decide) (by decide) (by decide) (by decide) rfl
      (by decide) (by decide) (by decide) (by decide) (by decide) (by decide)⟩

/-- The `verified` flag of a verification result depends only on the
facilitator outcome, never on the request or the clock. -/
theorem verifyPayment_verified_eq (fac : FacilitatorResult)
    (request : VerifyPaymentRequest) (now : Nat) :
    (verifyPayment fac request now).verified = facReportsVerified fac := by
  cases fac <;> rfl

/-- What a successful `paymentCreate` guarantees: the new table is the old
one with the new row appended, the row carries the generated id and the
requested column values, and its `txHash` was fresh. -/
theorem paymentCreate_ok_spec (db : DB) (newId : String) (d : PaymentData)
    (p : Payment) (db2 : DB)
    (h : paymentCreate db newId d = Except.ok (p, db2)) :
    db2.payments = db.payments ++ [p] ∧
    db2.shops = db.shops ∧
    d.txHash = some p.txHash ∧
    db.payments.any (fun q => q.txHash == p.txHash) = false ∧
    p.id = newId ∧
    p.productTitle = d.productTitle ∧
    p.status = d.status ∧
    p.facilitatorStatus = d.facilitatorStatus := by
  unfold paymentCreate at h
  split at h
  · rename_i pid amt tx fr toA tok net h1 h2 h3 h4 h5 h6 h7
    split at h
    · cases h
    · rename_i hfresh
      simp only [Bool.not_eq_true] at hfresh
      injection h with h'
      injection h' with hp hdb
      subst hp hdb
      exact ⟨rfl, rfl, h3, hfresh, rfl, rfl, rfl, rfl⟩
  · cases h

/-- A false `any`-scan for a txHash over the Payment table means that hash
is absent from the txHash column. -/
theorem any_txHash_eq_false_iff (payments : List Payment) (t : String) :
    payments.any (fun q => q.txHash == t) = false ↔
      t ∉ payments.map (fun p => p.txHash) := by
  rw [← Bool.not_eq_true, List.any_eq_true]
  simp only [beq_iff_eq, List.mem_map]

/-- Counterexample to C2: a `POST /shopify-proxy/api/payment/verify` that
passes the required-field and shop-resolution checks and whose facilitator
call fails persists NO Payment Record at all — the handler answers 400
`{error, verified:false}` before the `prisma.payment.create` call, so the
"persist regardless of outcome" part does not hold for this flow variant.
The facilitator was consulted (one call issued), yet the payments table is
still empty afterwards. -/
theorem proxyPaymentVerify_failure_no_record_counterexample :
    (proxyPaymentVerify sampleDB FacilitatorResult.failure
      (Except.ok { orderId := "order_1" }) "pay_1" 42
      (some "demo.myshopify.com") sampleProxyVerifyBody).facilitatorCalls ≠ [] ∧
    (proxyPaymentVerify sampleDB FacilitatorResult.failure
      (Except.ok { orderId := "order_1" }) "pay_1" 42
      (some "demo.myshopify.com") sampleProxyVerifyBody).db.payments = [] ∧
    (proxyPaymentVerify sampleDB FacilitatorResult.failure
      (Except.ok { orderId := "order_1" }) "pay_1" 42
      (some "demo.myshopify.com") sampleProxyVerifyBody).response =
      ProxyVerifyResponse.verificationFailed "Payment verification failed" false := by
  decide

/-- C2 as amended: on a facilitator failure or non-success verdict,
`POST /api/payment/verify` persists a Payment Record with
`status = "failed"` and `facilitatorStatus = "failed"` (when the create
succeeds), while `POST /shopify-proxy/api/payment/verify` persists nothing
and answers 400 `{error, verified:false}` — only the plain variant records
failed attempts. -/
theorem paymentVerify_failure_outcomes (db : DB) (fac : FacilitatorResult)
    (newId newId2 : String) (now : Nat) (body : VerifyBody)
    (shopData pShopData : Shop) (pid : String)
    (shop : Option String) (pbody : ProxyVerifyBody)
    (orderResult : Except String OrderReceipt)
    (w tok net : String)
    (hfail : facReportsVerified fac = false)
    (hshop : jsTruthy body.shop = true)
    (htx : jsTruthy body.txHash = true)
    (hfrom : jsTruthy body.fromAddress = true)
    (hamt : jsTruthy body.amount = true)
    (hfind : shopFindUnique db (body.shop.getD "") = some shopData)
    (hpid : body.productId = some pid)
    (hw : shopData.walletAddress = some w)
    (htok : shopData.acceptedToken = some tok)
    (hnet : shopData.acceptedNetwork = some net)
    (hfresh : db.payments.any
      (fun q => q.txHash == body.txHash.getD "") = false)
    (hshop' : jsTruthy shop = true)
    (htx' : jsTruthy pbody.txHash = true)
    (hfrom' : jsTruthy pbody.fromAddress = true)
    (hamt' : jsTruthy pbody.amount = true)
    (hfind' : shopFindUnique db (shop.getD "") = some pShopData) :
    (∃ p, (postPaymentVerify db fac newId now body).db.payments =
        db.payments ++ [p] ∧
      p.status = "failed" ∧ p.facilitatorStatus = "failed") ∧
    ((proxyPaymentVerify db fac orderResult newId2 now shop pbody).db = db ∧
      (proxyPaymentVerify db fac orderResult newId2 now shop pbody).response =
        ProxyVerifyResponse.verificationFailed "Payment verification failed" false) := by
  constructor
  · obtain ⟨tx, htx1, -⟩ := (jsTruthy_eq_true_iff body.txHash).mp htx
    obtain ⟨fr, hfr1, -⟩ := (jsTruthy_eq_true_iff body.fromAddress).mp hfrom
    obtain ⟨amt, hamt1, -⟩ := (jsTruthy_eq_true_iff body.amount).mp hamt
    rw [htx1] at hfresh htx
    rw [hfr1] at hfrom
    rw [hamt1] at hamt
    simp only [Option.getD_some] at hfresh
    simp [postPaymentVerify, hshop, htx, hfrom, hamt, hfind,
      verifyPayment_verified_eq, hfail, paymentCreate, verifyPaymentData,
      hpid, hw, htok, hnet, htx1, hfr1, hamt1, hfresh]
  · constructor
    · simp [proxyPaymentVerify, hshop', htx', hfrom', hamt', hfind',
        verifyPayment_verified_eq, hfail]
    · simp [proxyPaymentVerify, hshop', htx', hfrom', hamt', hfind',
        verifyPayment_verified_eq, hfail]

/-- Witness for the amended C2 on concrete data: an unreachable facilitator. -/
theorem paymentVerify_failure_outcomes_witness :
    facReportsVerified FacilitatorResult.failure = false ∧
    (∃ p, (postPaymentVerify sampleDB FacilitatorResult.failure "pay_1" 42
        sampleVerifyBody).db.payments = [] ++ [p] ∧
      p.status = "failed" ∧ p.facilitatorStatus = "failed") ∧
    ((proxyPaymentVerify sampleDB FacilitatorResult.failure
        (Except.ok { orderId := "order_1" }) "pay_2" 42
        (some "demo.myshopify.com") sampleProxyVerifyBody).db = sampleDB ∧
      (proxyPaymentVerify sampleDB FacilitatorResult.failure
        (Except.ok { orderId := "order_1" }) "pay_2" 42
        (some "demo.myshopify.com") sampleProxyVerifyBody).response =
        ProxyVerifyResponse.verificationFailed "Payment verification failed" false) :=
  ⟨by decide,
    paymentVerify_failure_outcomes sampleDB FacilitatorResult.failure
      "pay_1" "pay_2" 42 sampleVerifyBody sampleShop sampleShop "prod_1"
      (some "demo.myshopify.com") sampleProxyVerifyBody
      (Except.ok { orderId := "order_1" }) "0xWallet" "USDC" "base"
      (by decide) (by decide) (by decide) (by decide) (by decide) (by decide)
      (by decide) (by decide) (by decide) (by decide) (by decide)
      (by decide) (by decide) (by decide) (by decide) (by decide)⟩

/-- Counterexample to C7: a valid `POST /api/payment/verify` for a shop
that exists but has `isX402Enabled = false` is NOT rejected early — the
handler issues the facilitator call, persists a Payment Record, and answers
200. The handler checks only that the shop exists (404), never the
enabled flag. -/
theorem postPaymentVerify_disabled_not_rejected_counterexample :
    sampleDisabledShop.isX402Enabled = false ∧
    shopFindUnique sampleDisabledDB "demo.myshopify.com" =
      some sampleDisabledShop ∧
    (postPaymentVerify sampleDisabledDB
      (FacilitatorResult.success sampleFacData) "pay_1" 42
      sampleVerifyBody).facilitatorCalls ≠ [] ∧
    (postPaymentVerify sampleDisabledDB
      (FacilitatorResult.success sampleFacData) "pay_1" 42
      sampleVerifyBody).db.payments.length = 1 ∧
    (postPaymentVerify sampleDisabledDB
      (FacilitatorResult.success sampleFacData) "pay_1" 42
      sampleVerifyBody).response = VerifyResponse.ok
      { verified := true
        paymentId := "pay_1"
        status := "completed"
        transaction := sampleTx } := by
  decide

/-- C7 as amended: the verify orchestrator's only shop-based rejection is
the absent-shop 404; when the shop exists, the request proceeds whether or
not `isX402Enabled` is set — the facilitator is consulted, and (when the
create succeeds) a Payment Record is persisted. The `hdis` hypothesis
records that this holds in particular for disabled shops. -/
theorem postPaymentVerify_ignores_disabled_flag (db : DB)
    (fac : FacilitatorResult) (newId : String) (now : Nat)
    (body : VerifyBody) (shopData : Shop) (pid w tok net : String)
    (hshop : jsTruthy body.shop = true)
    (htx : jsTruthy body.txHash = true)
    (hfrom : jsTruthy body.fromAddress = true)
    (hamt : jsTruthy body.amount = true)
    (hfind : shopFindUnique db (body.shop.getD "") = some shopData)
    (hdis : shopData.isX402Enabled = false)
    (hpid : body.productId = some pid)
    (hw : shopData.walletAddress = some w)
    (htok : shopData.acceptedToken = some tok)
    (hnet : shopData.acceptedNetwork = some net)
    (hfresh : db.payments.any
      (fun q => q.txHash == body.txHash.getD "") = false) :
    (postPaymentVerify db fac newId now body).facilitatorCalls =
      [mkVerifyRequest shopData body.txHash body.fromAddress body.amount] ∧
    ∃ p, (postPaymentVerify db fac newId now body).db.payments =
      db.payments ++ [p] := by
  obtain ⟨tx, htx1, -⟩ := (jsTruthy_eq_true_iff body.txHash).mp htx
  obtain ⟨fr, hfr1, -⟩ := (jsTruthy_eq_true_iff body.fromAddress).mp hfrom
  obtain ⟨amt, hamt1, -⟩ := (jsTruthy_eq_true_iff body.amount).mp hamt
  rw [htx1] at hfresh htx
  rw [hfr1] at hfrom
  rw [hamt1] at hamt
  simp only [Option.getD_some] at hfresh
  simp [postPaymentVerify, hshop, htx, hfrom, hamt, hfind, paymentCreate,
    verifyPaymentData, hpid, hw, htok, hnet, htx1, hfr1, hamt1, hfresh]

/-- Witness for the amended C7 on concrete data: the disabled sample shop. -/
theorem postPaymentVerify_ignores_disabled_flag_witness :
    sampleDisabledShop.isX402Enabled = false ∧
    ((postPaymentVerify sampleDisabledDB FacilitatorResult.failure "pay_1"
        42 sampleVerifyBody).facilitatorCalls =
      [mkVerifyRequest sampleDisabledShop (some "0xdeadbeef")
        (some "0xBuyer") (some "10")] ∧
    ∃ p, (postPaymentVerify sampleDisabledDB FacilitatorResult.failure
        "pay_1" 42 sampleVerifyBody).db.payments = [] ++ [p]) :=
  ⟨by decide,
    postPaymentVerify_ignores_disabled_flag sampleDisabledDB
      FacilitatorResult.failure "pay_1" 42 sampleVerifyBody
      sampleDisabledShop "prod_1" "0xWallet" "USDC" "base"
      (by decide) (by decide) (by decide) (by decide) (by decide)
      (by decide) (by decide) (by decide) (by decide) (by decide)
      (by decide)⟩

/-- Structural fact: a run of `POST /api/payment/verify` either leaves the
database untouched, or its final database is the result of a successful
`paymentCreate` of the verify record for the resolved shop. -/
theorem postPaymentVerify_db_cases (db : DB) (fac : FacilitatorResult)
    (newId : String) (now : Nat) (body : VerifyBody) :
    (postPaymentVerify db fac newId now body).db = db ∨
    ∃ shopData p, paymentCreate db newId (verifyPaymentData shopData body
        (verifyPayment fac (mkVerifyRequest shopData body.txHash
          body.fromAddress body.amount) now)) =
      Except.ok (p, (postPaymentVerify db fac newId now body).db) := by
  simp only [postPaymentVerify]
  split
  · exact Or.inl rfl
  · split
    · exact Or.inl rfl
    · rename_i shopData _
      split
      · exact Or.inl rfl
      · rename_i payment db2 heq
        exact Or.inr ⟨shopData, payment, heq⟩

/-- C8: `POST /api/payment/verify` maintains global txHash uniqueness.
A run preserves the no-duplicate invariant of the txHash column, and when
the request's txHash is already recorded the store is left exactly as it
was (the second create attempt fails) and — provided the run got past the
field and shop checks — the handler surfaces the failure as the 500 error
response. -/
theorem postPaymentVerify_txHash_unique (db : DB) (fac : FacilitatorResult)
    (newId : String) (now : Nat) (body : VerifyBody)
    (hnd : (txHashes db).Nodup) :
    (txHashes (postPaymentVerify db fac newId now body).db).Nodup ∧
    ∀ t, body.txHash = some t → t ∈ txHashes db →
      (postPaymentVerify db fac newId now body).db = db ∧
      (jsTruthy body.shop = true → jsTruthy body.txHash = true →
        jsTruthy body.fromAddress = true → jsTruthy body.amount = true →
        ∀ shopData, shopFindUnique db (body.shop.getD "") = some shopData →
        (postPaymentVerify db fac newId now body).response =
          VerifyResponse.serverError "Payment verification failed") := by
  constructor
  · rcases postPaymentVerify_db_cases db fac newId now body with h | ⟨sd, p, heq⟩
    · rw [h]; exact hnd
    · obtain ⟨hpay, -, -, hfresh, -, -, -, -⟩ :=
        paymentCreate_ok_spec _ _ _ _ _ heq
      have hnot : p.txHash ∉ txHashes db :=
        (any_txHash_eq_false_iff _ _).mp hfresh
      have hmap : txHashes (postPaymentVerify db fac newId now body).db =
          txHashes db ++ [p.txHash] := by
        simp [txHashes, hpay]
      rw [hmap, List.nodup_append]
      refine ⟨hnd, List.nodup_singleton _, ?_⟩
      intro a ha hb
      rw [List.mem_singleton] at hb
      subst hb
      exact hnot ha
  · intro t ht hmem
    have hdb : (postPaymentVerify db fac newId now body).db = db := by
      rcases postPaymentVerify_db_cases db fac newId now body with h | ⟨sd, p, heq⟩
      · exact h
      · obtain ⟨-, -, htxe, hfresh, -, -, -, -⟩ :=
          paymentCreate_ok_spec _ _ _ _ _ heq
        simp only [verifyPaymentData] at htxe
        rw [ht] at htxe
        injection htxe with hte
        rw [← hte] at hfresh
        exact absurd hmem ((any_txHash_eq_false_iff _ _).mp hfresh)
    refine ⟨hdb, ?_⟩
    intro h1 h2 h3 h4 shopData hfind
    simp only [postPaymentVerify]
    simp only [h1, h2, h3, h4, hfind, Bool.and_self, Bool.not_true,
      Bool.false_eq_true, if_false]
    split
    · rfl
    · rename_i payment db2 heq
      obtain ⟨-, -, htxe, hfresh, -, -, -, -⟩ :=
        paymentCreate_ok_spec _ _ _ _ _ heq
      simp only [verifyPaymentData] at htxe
      rw [ht] at htxe
      injection htxe with hte
      rw [← hte] at hfresh
      exact absurd hmem ((any_txHash_eq_false_iff _ _).mp hfresh)

/-- Witness for C8 on concrete data: re-verifying the already recorded
txHash "0xdeadbeef" changes nothing and answers the 500 error. -/
theorem postPaymentVerify_txHash_unique_witness :
    (txHashes sampleDBWithPayment).Nodup ∧
    "0xdeadbeef" ∈ txHashes sampleDBWithPayment ∧
    (postPaymentVerify sampleDBWithPayment FacilitatorResult.failure "pay_9"
      42 sampleVerifyBody).db = sampleDBWithPayment ∧
    (postPaymentVerify sampleDBWithPayment FacilitatorResult.failure "pay_9"
      42 sampleVerifyBody).response =
      VerifyResponse.serverError "Payment verification failed" := by
  refine ⟨by decide, by decide, ?_⟩
  have h := (postPaymentVerify_txHash_unique sampleDBWithPayment
    FacilitatorResult.failure "pay_9" 42 sampleVerifyBody (by decide)).2
    "0xdeadbeef" (by decide) (by decide)
  exact ⟨h.1, h.2 (by decide) (by decide) (by decide) (by decide) sampleShop
    (by decide)⟩

/-- Structural fact: a run of `POST /shopify-proxy/api/payment/verify`
either leaves the database untouched, or its final database is the result
of a successful `paymentCreate` of the proxy verify record for the
resolved shop. -/
theorem proxyPaymentVerify_db_cases (db : DB) (fac : FacilitatorResult)
    (orderResult : Except String OrderReceipt) (newId : String) (now : Nat)
    (shop : Option String) (pbody : ProxyVerifyBody) :
    (proxyPaymentVerify db fac orderResult newId now shop pbody).db = db ∨
    ∃ shopData p, paymentCreate db newId (proxyVerifyPaymentData shopData
        pbody (verifyPayment fac (mkVerifyRequest shopData pbody.txHash
          pbody.fromAddress pbody.amount) now)) =
      Except.ok (p, (proxyPaymentVerify db fac orderResult newId now shop pbody).db) := by
  simp only [proxyPaymentVerify]
  split
  · exact Or.inl rfl
  · split
    · exact Or.inl rfl
    · rename_i shopData _
      split
      · exact Or.inl rfl
      · split
        · exact Or.inl rfl
        · rename_i payment db2 heq
          split
          · exact Or.inr ⟨shopData, payment, heq⟩
          · exact Or.inr ⟨shopData, payment, heq⟩

/-- C10: whenever a verify request creates a Payment Record while omitting
`productTitle` (or sending an empty one), the record is created with the
literal "Unknown Product"; and `productTitle` is never part of the
required-field check of either verify endpoint (a request with the four
required fields present is never rejected with the missing-parameters
400, whatever its `productTitle`). -/
theorem paymentVerify_productTitle_default (db : DB)
    (fac : FacilitatorResult) (newId newId2 : String) (now : Nat)
    (body : VerifyBody) (shop : Option String) (pbody : ProxyVerifyBody)
    (orderResult : Except String OrderReceipt)
    (hnt : jsTruthy body.productTitle = false)
    (hnt' : jsTruthy pbody.productTitle = false) :
    (∀ p, p ∈ (postPaymentVerify db fac newId now body).db.payments →
      p ∉ db.payments → p.productTitle = "Unknown Product") ∧
    (jsTruthy body.shop = true → jsTruthy body.txHash = true →
      jsTruthy body.fromAddress = true → jsTruthy body.amount = true →
      (postPaymentVerify db fac newId now body).response ≠
        VerifyResponse.badRequest "Missing required parameters") ∧
    (∀ p, p ∈ (proxyPaymentVerify db fac orderResult newId2 now shop
        pbody).db.payments →
      p ∉ db.payments → p.productTitle = "Unknown Product") ∧
    (jsTruthy shop = true → jsTruthy pbody.txHash = true →
      jsTruthy pbody.fromAddress = true → jsTruthy pbody.amount = true →
      (proxyPaymentVerify db fac orderResult newId2 now shop pbody).response ≠
        ProxyVerifyResponse.badRequest "Missing required parameters") := by
  refine ⟨?_, ?_, ?_, ?_⟩
  · intro p hp hnotp
    rcases postPaymentVerify_db_cases db fac newId now body with h | ⟨sd, q, heq⟩
    · rw [h] at hp
      exact absurd hp hnotp
    · obtain ⟨hpay, -, -, -, -, htitle, -, -⟩ :=
        paymentCreate_ok_spec _ _ _ _ _ heq
      rw [hpay, List.mem_append] at hp
      rcases hp with hp | hp
      · exact absurd hp hnotp
      · rw [List.mem_singleton] at hp
        subst hp
        rw [htitle]
        simp [verifyPaymentData, jsOr, hnt]
  · intro h1 h2 h3 h4
    simp only [postPaymentVerify]
    simp only [h1, h2, h3, h4, Bool.and_self, Bool.not_true,
      Bool.false_eq_true, if_false]
    split
    · simp
    · split <;> simp
  · intro p hp hnotp
    rcases proxyPaymentVerify_db_cases db fac orderResult newId2 now shop
      pbody with h | ⟨sd, q, heq⟩
    · rw [h] at hp
      exact absurd hp hnotp
    · obtain ⟨hpay, -, -, -, -, htitle, -, -⟩ :=
        paymentCreate_ok_spec _ _ _ _ _ heq
      rw [hpay, List.mem_append] at hp
      rcases hp with hp | hp
      · exact absurd hp hnotp
      · rw [List.mem_singleton] at hp
        subst hp
        rw [htitle]
        simp [proxyVerifyPaymentData, jsOr, hnt']
  · intro h1 h2 h3 h4
    simp only [proxyPaymentVerify]
    simp only [h1, h2, h3, h4, Bool.and_self, Bool.not_true,
      Bool.false_eq_true, if_false]
    split
    · simp
    · split
      · simp
      · split
        · simp
        · split <;> simp

/-- Witness for C10 on concrete data: bodies omitting `productTitle`. -/
theorem paymentVerify_productTitle_default_witness :
    jsTruthy sampleVerifyBodyNoTitle.productTitle = false ∧
    ((∀ p, p ∈ (postPaymentVerify sampleDB FacilitatorResult.failure "pay_1"
        42 sampleVerifyBodyNoTitle).db.payments →
      p ∉ sampleDB.payments → p.productTitle = "Unknown Product") ∧
    (jsTruthy sampleVerifyBodyNoTitle.shop = true →
      jsTruthy sampleVerifyBodyNoTitle.txHash = true →
      jsTruthy sampleVerifyBodyNoTitle.fromAddress = true →
      jsTruthy sampleVerifyBodyNoTitle.amount = true →
      (postPaymentVerify sampleDB FacilitatorResult.failure "pay_1" 42
        sampleVerifyBodyNoTitle).response ≠
        VerifyResponse.badRequest "Missing required parameters") ∧
    (∀ p, p ∈ (proxyPaymentVerify sampleDB FacilitatorResult.failure
        (Except.ok { orderId := "order_1" }) "pay_2" 42
        (some "demo.myshopify.com") sampleProxyVerifyBodyNoTitle).db.payments →
      p ∉ sampleDB.payments → p.productTitle = "Unknown Product") ∧
    (jsTruthy (some "demo.myshopify.com") = true →
      jsTruthy sampleProxyVerifyBodyNoTitle.txHash = true →
      jsTruthy sampleProxyVerifyBodyNoTitle.fromAddress = true →
      jsTruthy sampleProxyVerifyBodyNoTitle.amount = true →
      (proxyPaymentVerify sampleDB FacilitatorResult.failure
        (Except.ok { orderId := "order_1" }) "pay_2" 42
        (some "demo.myshopify.com") sampleProxyVerifyBodyNoTitle).response ≠
        ProxyVerifyResponse.badRequest "Missing required parameters")) :=
  ⟨by decide,
    paymentVerify_productTitle_default sampleDB FacilitatorResult.failure
      "pay_1" "pay_2" 42 sampleVerifyBodyNoTitle
      (some "demo.myshopify.com") sampleProxyVerifyBodyNoTitle
      (Except.ok { orderId := "order_1" }) (by decide) (by decide)⟩

/-- C9: a `POST /api/config` for an existing shop touches only the matched
row, leaves the Payment table alone, and on that row changes only the four
payment fields — each exactly when present in the body — while
`shopDomain`, `accessToken`, `scope` (and `id`) keep their previous
values; the response echoes the four updated fields. -/
theorem postConfig_frame (db : DB) (body : ConfigBody) (s : Shop)
    (hshop : jsTruthy body.shop = true)
    (hfind : shopFindUnique db (body.shop.getD "") = some s) :
    (postConfig db body).db.payments = db.payments ∧
    (postConfig db body).db.shops = db.shops.map (fun t =>
      if t.shopDomain == body.shop.getD "" then applyConfigUpdate s body
      else t) ∧
    (∀ t, t ∈ db.shops → t.shopDomain ≠ body.shop.getD "" →
      t ∈ (postConfig db body).db.shops) ∧
    (applyConfigUpdate s body).id = s.id ∧
    (applyConfigUpdate s body).shopDomain = s.shopDomain ∧
    (applyConfigUpdate s body).accessToken = s.accessToken ∧
    (applyConfigUpdate s body).scope = s.scope ∧
    (body.walletAddress = none →
      (applyConfigUpdate s body).walletAddress = s.walletAddress) ∧
    (∀ v, body.walletAddress = some v →
      (applyConfigUpdate s body).walletAddress = some v) ∧
    (body.acceptedToken = none →
      (applyConfigUpdate s body).acceptedToken = s.acceptedToken) ∧
    (∀ v, body.acceptedToken = some v →
      (applyConfigUpdate s body).acceptedToken = some v) ∧
    (body.acceptedNetwork = none →
      (applyConfigUpdate s body).acceptedNetwork = s.acceptedNetwork) ∧
    (∀ v, body.acceptedNetwork = some v →
      (applyConfigUpdate s body).acceptedNetwork = some v) ∧
    (body.isX402Enabled = none →
      (applyConfigUpdate s body).isX402Enabled = s.isX402Enabled) ∧
    (∀ b, body.isX402Enabled = some b →
      (applyConfigUpdate s body).isX402Enabled = b) ∧
    (postConfig db body).response = ConfigResponse.ok true
      { walletAddress := (applyConfigUpdate s body).walletAddress
        acceptedToken := (applyConfigUpdate s body).acceptedToken
        acceptedNetwork := (applyConfigUpdate s body).acceptedNetwork
        isX402Enabled := (applyConfigUpdate s body).isX402Enabled } := by
  refine ⟨?_, ?_, ?_, rfl, rfl, rfl, rfl, ?_, ?_, ?_, ?_, ?_, ?_, ?_, ?_, ?_⟩
  · simp [postConfig, hshop, hfind]
  · simp [postConfig, hshop, hfind]
  · intro t ht hne
    have hbeq : (t.shopDomain == body.shop.getD "") = false :=
      beq_eq_false_iff_ne.mpr hne
    simp only [postConfig, hshop, hfind, Bool.not_true, Bool.false_eq_true,
      if_false]
    exact List.mem_map.mpr ⟨t, ht, by simp [hbeq]⟩
  · intro h; simp [applyConfigUpdate, h]
  · intro v h; simp [applyConfigUpdate, h]
  · intro h; simp [applyConfigUpdate, h]
  · intro v h; simp [applyConfigUpdate, h]
  · intro h; simp [applyConfigUpdate, h]
  · intro v h; simp [applyConfigUpdate, h]
  · intro h; simp [applyConfigUpdate, h]
  · intro b h; simp [applyConfigUpdate, h]
  · simp [postConfig, hshop, hfind]

/-- Witness for C9 on concrete data: a body updating `walletAddress` and
`isX402Enabled` while omitting the token and network. -/
theorem postConfig_frame_witness :
    shopFindUnique sampleDB "demo.myshopify.com" = some sampleShop ∧
    ((postConfig sampleDB sampleConfigBody).db.payments = sampleDB.payments ∧
    (postConfig sampleDB sampleConfigBody).db.shops = sampleDB.shops.map
      (fun t => if t.shopDomain == "demo.myshopify.com" then
        applyConfigUpdate sampleShop sampleConfigBody else t) ∧
    (∀ t, t ∈ sampleDB.shops → t.shopDomain ≠ "demo.myshopify.com" →
      t ∈ (postConfig sampleDB sampleConfigBody).db.shops) ∧
    (applyConfigUpdate sampleShop sampleConfigBody).id = sampleShop.id ∧
    (applyConfigUpdate sampleShop sampleConfigBody).shopDomain =
      sampleShop.shopDomain ∧
    (applyConfigUpdate sampleShop sampleConfigBody).accessToken =
      sampleShop.accessToken ∧
    (applyConfigUpdate sampleShop sampleConfigBody).scope = sampleShop.scope ∧
    (sampleConfigBody.walletAddress = none →
      (applyConfigUpdate sampleShop sampleConfigBody).walletAddress =
        sampleShop.walletAddress) ∧
    (∀ v, sampleConfigBody.walletAddress = some v →
      (applyConfigUpdate sampleShop sampleConfigBody).walletAddress = some v) ∧
    (sampleConfigBody.acceptedToken = none →
      (applyConfigUpdate sampleShop sampleConfigBody).acceptedToken =
        sampleShop.acceptedToken) ∧
    (∀ v, sampleConfigBody.acceptedToken = some v →
      (applyConfigUpdate sampleShop sampleConfigBody).acceptedToken = some v) ∧
    (sampleConfigBody.acceptedNetwork = none →
      (applyConfigUpdate sampleShop sampleConfigBody).acceptedNetwork =
        sampleShop.acceptedNetwork) ∧
    (∀ v, sampleConfigBody.acceptedNetwork = some v →
      (applyConfigUpdate sampleShop sampleConfigBody).acceptedNetwork = some v) ∧
    (sampleConfigBody.isX402Enabled = none →
      (applyConfigUpdate sampleShop sampleConfigBody).isX402Enabled =
        sampleShop.isX402Enabled) ∧
    (∀ b, sampleConfigBody.isX402Enabled = some b →
      (applyConfigUpdate sampleShop sampleConfigBody).isX402Enabled = b) ∧
    (postConfig sampleDB sampleConfigBody).response = ConfigResponse.ok true
      { walletAddress :=
          (applyConfigUpdate sampleShop sampleConfigBody).walletAddress
        acceptedToken :=
          (applyConfigUpdate sampleShop sampleConfigBody).acceptedToken
        acceptedNetwork :=
          (applyConfigUpdate sampleShop sampleConfigBody).acceptedNetwork
        isX402Enabled :=
          (applyConfigUpdate sampleShop sampleConfigBody).isX402Enabled }) :=
  ⟨by decide,
    postConfig_frame sampleDB sampleConfigBody sampleShop (by decide)
      (by decide)⟩

end X402Bridge
